import Mathlib

/-!
Verification of the voxel-tools add-on (`src/add-on_voxel-tools.py`).

The development shallowly embeds the algorithmic core of the add-on:

* `Volume` models a loaded 3-dimensional numpy array (dimensions plus a
  cell function); scalar cells are rationals.
* `Volume.transposeZYX` models `np.transpose(a, (2, 1, 0))` (lines 86, 88).
* `extract` models `np.argwhere(mask > 0)` (line 91): row-major scan over
  the first, second, third axis collecting coordinates of positive cells.
* `pyRound` models Python's `round` (banker's rounding, half to even),
  used at line 116 as `int(round(v))`.
* `sampleVert` models the per-vertex body of the colour loop
  (lines 115-122): round the position, bounds-check against the mask
  dimensions, re-check the mask, and either write the replicated value
  with opacity 1, write the zero sentinel, or write nothing at all
  (the code has no `else` for the outer bounds check).  Reading the
  value volume out of its own bounds is an `IndexError`, modelled as
  `Except.error`.
* `generateRun` models `VOXELTOOLS_OT_Generate.execute` (lines 62-212):
  the validation ladder, the transposition of both arrays, extraction,
  mesh creation and the colour loop, threading the ambient scene state
  (collection / node group / material reuse) that the operator reads
  and writes but that never feeds the produced point data.
* `findNearest` models `mathutils.kdtree.KDTree.find` (line 335): the
  index of a stored point at minimal distance to the query, `none` on an
  empty tree (the documented `(None, None, None)` return).
* `transferColors` models the attribute-transfer loop of
  `VOXELTOOLS_OT_Smooth.execute` (lines 331-336).
* `smoothRun` models the state-changing skeleton of
  `VOXELTOOLS_OT_Smooth.execute` (lines 219-347): delete any old
  "Smooth" object, bake a new one from "Cloud", then (only then) check
  the source attribute and transfer.
-/

/-- A loaded 3-dimensional array: explicit extents and a total cell
function.  Only in-bounds cells are ever meaningful; guarded access is
`Volume.read`. -/
structure Volume where
  dx : Nat
  dy : Nat
  dz : Nat
  cell : Nat → Nat → Nat → Rat

/-- Guarded array access: `some` cell value in bounds, `none` out of
bounds (numpy raises `IndexError` there; negative indices never reach a
read in the modelled code because of the preceding sign checks). -/
def Volume.read (v : Volume) (x y z : Nat) : Option Rat :=
  if x < v.dx ∧ y < v.dy ∧ z < v.dz then some (v.cell x y z) else none

/-- Model of `np.transpose(a, (2, 1, 0))` (lines 86 and 88): reverse the axis
order, so the loaded array indexed `[x, y, z]` reads the stored array at
`[z, y, x]`. -/
def Volume.transposeZYX (v : Volume) : Volume :=
  { dx := v.dz, dy := v.dy, dz := v.dx, cell := fun x y z => v.cell z y x }

/-- A grid coordinate as produced by `np.argwhere`. -/
abbrev Coord := Nat × Nat × Nat

/-- Model of `np.argwhere(mask > 0)` (line 91): scan the (already transposed)
mask in row-major order — first axis outermost — and collect every
coordinate whose cell is strictly positive. -/
def extract (m : Volume) : List Coord :=
  (List.range m.dx).flatMap fun x =>
    (List.range m.dy).flatMap fun y =>
      (List.range m.dz).filterMap fun z =>
        if 0 < m.cell x y z then some (x, y, z) else none

/-- Strict lexicographic order on coordinates: the scan order of
`extract`. -/
def coordLt (a b : Coord) : Prop :=
  a.1 < b.1 ∨ (a.1 = b.1 ∧ (a.2.1 < b.2.1 ∨ (a.2.1 = b.2.1 ∧ a.2.2 < b.2.2)))

/-- A vertex position (`vert.co`), in grid-unit space. -/
abbrev Pos3 := Rat × Rat × Rat

/-- A 4-channel colour attribute value (`FLOAT_COLOR`). -/
abbrev Color := Rat × Rat × Rat × Rat

/-- Python's built-in `round` (banker's rounding: halves go to the even
neighbour), as used in `int(round(v))` at line 116. -/
def pyRound (q : Rat) : Int :=
  let f := q.floor
  let frac := q - (f : Rat)
  if frac < 1/2 then f
  else if 1/2 < frac then f + 1
  else if f % 2 = 0 then f else f + 1

/-- Model of `verts = [tuple(coord) for coord in coords]` followed by
`mesh.from_pydata` (lines 104-105): a grid coordinate becomes a vertex
position by casting each component to a scalar. -/
def coordToPos (c : Coord) : Pos3 :=
  ((c.1 : Rat), (c.2.1 : Rat), (c.2.2 : Rat))

/-- Model of `x, y, z = map(lambda v: int(round(v)), vert.co)` (line 116). -/
def roundedCoord (p : Pos3) : Int × Int × Int :=
  (pyRound p.1, pyRound p.2.1, pyRound p.2.2)

/-- The bounds test of line 117:
`0 <= x < dims[0] and 0 <= y < dims[1] and 0 <= z < dims[2]`. -/
abbrev inBounds (m : Volume) (c : Int × Int × Int) : Prop :=
  0 ≤ c.1 ∧ c.1 < (m.dx : Int) ∧ 0 ≤ c.2.1 ∧ c.2.1 < (m.dy : Int) ∧
    0 ≤ c.2.2 ∧ c.2.2 < (m.dz : Int)

/-- The body of the colour loop (lines 115-122) for one vertex.
`Except.error ()` is the `IndexError` numpy raises when the value
volume does not cover the coordinate; `Except.ok none` means the loop
writes nothing for this vertex (there is no `else` for the outer bounds
check, so the colour keeps the attribute's default);
`Except.ok (some c)` means the loop writes colour `c`. -/
def sampleVert (mask lac : Volume) (p : Pos3) : Except Unit (Option Color) :=
  let x := pyRound p.1
  let y := pyRound p.2.1
  let z := pyRound p.2.2
  if 0 ≤ x ∧ x < (mask.dx : Int) ∧ 0 ≤ y ∧ y < (mask.dy : Int) ∧
      0 ≤ z ∧ z < (mask.dz : Int) then
    if 0 < mask.cell x.toNat y.toNat z.toNat then
      match lac.read x.toNat y.toNat z.toNat with
      | some val => Except.ok (some (val, val, val, 1))
      | none => Except.error ()
    else Except.ok (some (0, 0, 0, 0))
  else Except.ok none

/-- The whole colour loop: the written-colour slots for each vertex, or
the first uncaught `IndexError`. -/
def sampleAll (mask lac : Volume) : List Pos3 → Except Unit (List (Option Color))
  | [] => Except.ok []
  | p :: ps =>
    match sampleVert mask lac p with
    | Except.error e => Except.error e
    | Except.ok c =>
      match sampleAll mask lac ps with
      | Except.error e => Except.error e
      | Except.ok cs => Except.ok (c :: cs)

/-- The point data the Generate operator produces: vertex positions
(line 105) in extraction order and, per vertex, the colour written by
the loop (`none` when the loop left the slot untouched). -/
structure PointCloud where
  positions : List Pos3
  colors : List (Option Color)
deriving DecidableEq

/-- The failure exits of `VOXELTOOLS_OT_Generate.execute`:
the two path checks (lines 69-75), the empty-attribute-name check
(lines 77-79), and the `except` clause around the generation body
(lines 210-212). -/
inductive GenError
  | ioErrorParam
  | ioErrorMask
  | attributeNameError
  | generationFailed
deriving DecidableEq

/-- The ambient state the Generate operator reads and writes besides
the produced point data: the "Voxel Gen Output" collection (lines
97-102), the "Voxel_Instances" node group (lines 124-128), the
"Voxel_Map" material (lines 164-201), and how many "Cloud" objects the
scene holds. -/
structure GenScene where
  collectionExists : Bool
  nodeGroupExists : Bool
  materialExists : Bool
  cloudObjects : Nat
deriving DecidableEq

deriving instance DecidableEq for Except

/-- Outcome of one Generate invocation: the scene afterwards and either
the produced point data or the reported error. -/
structure GenResult where
  scene : GenScene
  outcome : Except GenError PointCloud
deriving DecidableEq

/-- Python's `str.strip()` (lines 67 and 221): remove whitespace from
both ends. -/
def pyStrip (s : String) : String :=
  ⟨((s.data.dropWhile Char.isWhitespace).reverse.dropWhile
      Char.isWhitespace).reverse⟩

/-- Lines 89-212 of `VOXELTOOLS_OT_Generate.execute`, after both arrays
have been loaded and transposed: extract the occupied coordinates,
create the Cloud mesh in the output collection, run the colour loop,
and build the node group and material.  An `IndexError` in the loop is
caught by the operator's `except` and reported as a generation
failure; the mesh object was already created and linked by then. -/
def generateCore (s : GenScene) (lac mask : Volume) : GenResult :=
  let coords := extract mask
  let verts := coords.map coordToPos
  let s1 : GenScene :=
    { s with collectionExists := true, cloudObjects := s.cloudObjects + 1 }
  match sampleAll mask lac verts with
  | Except.error _ => ⟨s1, Except.error GenError.generationFailed⟩
  | Except.ok cols =>
      ⟨{ s1 with nodeGroupExists := true, materialExists := true },
        Except.ok ⟨verts, cols⟩⟩

/-- Model of `VOXELTOOLS_OT_Generate.execute` (lines 62-212): the validation
ladder (param path, mask path, stripped attribute name), then both
arrays are loaded and axis-reversed with `np.transpose(·, (2, 1, 0))`
(lines 85-88) and the generation body runs.  File loading is abstracted
by the two `Ok` flags plus the stored arrays. -/
def generateRun (s : GenScene) (paramFileOk maskFileOk : Bool)
    (attrName : String) (lacStored maskStored : Volume) : GenResult :=
  if !paramFileOk then ⟨s, Except.error GenError.ioErrorParam⟩
  else if !maskFileOk then ⟨s, Except.error GenError.ioErrorMask⟩
  else if pyStrip attrName = "" then ⟨s, Except.error GenError.attributeNameError⟩
  else generateCore s lacStored.transposeZYX maskStored.transposeZYX

/-- A mesh datablock as the Smooth operator sees it: vertex positions
plus named point-domain colour attributes. -/
structure MeshObj where
  positions : List Pos3
  attrs : List (String × List Color)
deriving DecidableEq

/-- Membership test `attr_name in mesh.color_attributes`. -/
def MeshObj.hasAttr (o : MeshObj) (name : String) : Bool :=
  o.attrs.any fun a => a.1 = name

/-- Lookup of `mesh.color_attributes[attr_name]` data (defaulting to `[]`; only
used after `hasAttr` has been checked). -/
def MeshObj.attrData (o : MeshObj) (name : String) : List Color :=
  ((o.attrs.find? fun a => a.1 = name).map Prod.snd).getD []

/-- Squared Euclidean distance between vertex positions, the metric of
`mathutils.kdtree` queries (monotone in the true distance). -/
def dist2 (p q : Pos3) : Rat :=
  (p.1 - q.1) ^ 2 + (p.2.1 - q.2.1) ^ 2 + (p.2.2 - q.2.2) ^ 2

/-- Helper for `findNearest`: the index (counting from `i`) and squared
distance of a closest point of the list, preferring the earliest index
on ties. -/
def findNearestAux (q : Pos3) : List Pos3 → Nat → Option (Nat × Rat)
  | [], _ => none
  | p :: ps, i =>
    match findNearestAux q ps (i + 1) with
    | none => some (i, dist2 p q)
    | some (j, d) => if dist2 p q ≤ d then some (i, dist2 p q) else some (j, d)

/-- Model of `kd.find(world_pos2)` (line 335) over a tree holding the source
positions in vertex order (lines 320-324): the index of a nearest
stored point, or `none` on an empty tree — `KDTree.find` returns
`(None, None, None)` there rather than raising. -/
def findNearest (pts : List Pos3) (q : Pos3) : Option Nat :=
  (findNearestAux q pts 0).map Prod.fst

/-- The transfer loop (lines 331-336): for each target vertex, look up
the nearest source vertex and copy its colour verbatim.  `none` models
the uncaught `TypeError` of `src_colors[None]` when the tree is empty
but the target is not. -/
def transferColors (srcPos : List Pos3) (srcColors : List Color) :
    List Pos3 → Option (List Color)
  | [] => some []
  | t :: ts =>
    match (findNearest srcPos t).bind fun j => srcColors[j]? with
    | none => none
    | some c => (transferColors srcPos srcColors ts).map (c :: ·)

/-- The named objects `VOXELTOOLS_OT_Smooth.execute` works on:
`bpy.data.objects["Cloud"]` and `bpy.data.objects["Smooth"]`. -/
structure SmoothScene where
  cloud : Option MeshObj
  smooth : Option MeshObj
deriving DecidableEq

/-- The failure exits of `VOXELTOOLS_OT_Smooth.execute`: the missing
Cloud check (lines 225-227), the missing source attribute check (lines
312-314), and the uncaught `TypeError` of an empty k-d tree with a
non-empty target (line 336). -/
inductive SmoothError
  | noCloud
  | missingAttribute
  | transferCrash
deriving DecidableEq

/-- Outcome of one Smooth invocation: the scene afterwards and whether
the operator finished or failed. -/
structure SmoothResult where
  scene : SmoothScene
  outcome : Except SmoothError Unit
deriving DecidableEq

/-- Model of `VOXELTOOLS_OT_Smooth.execute` (lines 219-347).  `resample` stands
for the external points→volume→mesh collaborator applied by
`modifier_apply` (lines 248-306); its output carries no colour
attributes.  Order of effects, as in the code: require "Cloud"; delete
any existing "Smooth" (lines 230-232); duplicate and bake the new
"Smooth" (lines 234-306); only then check the source attribute (lines
312-314); then build the k-d tree over the Cloud vertices and copy the
nearest source colour onto every target vertex (lines 319-336). -/
def smoothRun (resample : List Pos3 → List Pos3) (attrNameRaw : String)
    (s : SmoothScene) : SmoothResult :=
  let attrName := pyStrip attrNameRaw
  match s.cloud with
  | none => ⟨s, Except.error SmoothError.noCloud⟩
  | some cloud =>
    let baked : MeshObj := { positions := resample cloud.positions, attrs := [] }
    let s1 : SmoothScene := { s with smooth := some baked }
    if cloud.hasAttr attrName then
      match transferColors cloud.positions (cloud.attrData attrName)
          baked.positions with
      | none => ⟨s1, Except.error SmoothError.transferCrash⟩
      | some out =>
          let final : MeshObj := { baked with attrs := [(attrName, out)] }
          ⟨{ s with smooth := some final }, Except.ok ()⟩
    else ⟨s1, Except.error SmoothError.missingAttribute⟩

theorem extract_mem_iff (m : Volume) (c : Coord) :
    c ∈ extract m ↔
      c.1 < m.dx ∧ c.2.1 < m.dy ∧ c.2.2 < m.dz ∧ 0 < m.cell c.1 c.2.1 c.2.2 := by
  obtain ⟨x, y, z⟩ := c
  simp only [extract, List.mem_flatMap, List.mem_filterMap, List.mem_range]
  constructor
  · rintro ⟨x', hx', y', hy', z', hz', h⟩
    split at h
    · rename_i hpos
      cases h
      exact ⟨hx', hy', hz', hpos⟩
    · cases h
  · rintro ⟨hx, hy, hz, hpos⟩
    exact ⟨x, hx, y, hy, z, hz, by simp [hpos]⟩

theorem extract_inner_fst_snd {m : Volume} {x y : Nat} {c : Coord}
    (hc : c ∈ (List.range m.dz).filterMap
      fun z => if 0 < m.cell x y z then some (x, y, z) else none) :
    c.1 = x ∧ c.2.1 = y := by
  rw [List.mem_filterMap] at hc
  obtain ⟨z, _, hz⟩ := hc
  split at hz
  · cases hz; exact ⟨rfl, rfl⟩
  · cases hz

theorem extract_mid_fst {m : Volume} {x : Nat} {c : Coord}
    (hc : c ∈ (List.range m.dy).flatMap fun y =>
      (List.range m.dz).filterMap
        fun z => if 0 < m.cell x y z then some (x, y, z) else none) :
    c.1 = x := by
  rw [List.mem_flatMap] at hc
  obtain ⟨y, _, hy⟩ := hc
  exact (extract_inner_fst_snd hy).1

theorem extract_nodup (m : Volume) : (extract m).Nodup := by
  unfold extract
  refine List.nodup_flatMap.2 ⟨?_, ?_⟩
  · intro x _
    refine List.nodup_flatMap.2 ⟨?_, ?_⟩
    · intro y _
      refine List.Nodup.filterMap ?_ (List.nodup_range _)
      intro z z' c hc hc'
      rw [Option.mem_def] at hc hc'
      split at hc
      · cases hc
        split at hc'
        · cases hc'; rfl
        · cases hc'
      · cases hc
    · refine (List.pairwise_lt_range _).imp ?_
      intro y y' hyy' c hc hc'
      have h1 := (extract_inner_fst_snd hc).2
      have h2 := (extract_inner_fst_snd hc').2
      omega
  · refine (List.pairwise_lt_range _).imp ?_
    intro x x' hxx' c hc hc'
    have h1 := extract_mid_fst hc
    have h2 := extract_mid_fst hc'
    omega

theorem pairwise_flatMap_of {α β : Type _} {S : β → β → Prop} {l : List α}
    {f : α → List β} (h1 : ∀ a ∈ l, (f a).Pairwise S)
    (h2 : l.Pairwise fun a a' => ∀ b ∈ f a, ∀ b' ∈ f a', S b b') :
    (l.flatMap f).Pairwise S := by
  induction l with
  | nil => simp
  | cons a l ih =>
    rw [List.flatMap_cons, List.pairwise_append]
    obtain ⟨hrel, htail⟩ := List.pairwise_cons.1 h2
    refine ⟨h1 a (by simp), ih (fun a' ha' => h1 a' (by simp [ha'])) htail, ?_⟩
    intro b hb b' hb'
    rw [List.mem_flatMap] at hb'
    obtain ⟨a', ha', hb'⟩ := hb'
    exact hrel a' ha' b hb b' hb'

theorem extract_sorted (m : Volume) : (extract m).Pairwise coordLt := by
  unfold extract
  refine pairwise_flatMap_of ?_ ?_
  · intro x _
    refine pairwise_flatMap_of ?_ ?_
    · intro y _
      refine List.Pairwise.filterMap _ ?_ (List.pairwise_lt_range _)
      intro z z' hzz' c hc c' hc'
      rw [Option.mem_def] at hc hc'
      split at hc
      · cases hc
        split at hc'
        · cases hc'
          exact Or.inr ⟨rfl, Or.inr ⟨rfl, hzz'⟩⟩
        · cases hc'
      · cases hc
    · refine (List.pairwise_lt_range _).imp ?_
      intro y y' hyy' c hc c' hc'
      obtain ⟨he1, he2⟩ := extract_inner_fst_snd hc
      obtain ⟨he1', he2'⟩ := extract_inner_fst_snd hc'
      exact Or.inr ⟨he1.trans he1'.symm, Or.inl (by omega)⟩
  · refine (List.pairwise_lt_range _).imp ?_
    intro x x' hxx' c hc c' hc'
    have h1 := extract_mid_fst hc
    have h2 := extract_mid_fst hc'
    exact Or.inl (by omega)

/-- C3: `np.argwhere(mask > 0)` (line 91) returns exactly the in-bounds
coordinates with a strictly positive mask cell, each exactly once, in
the fixed row-major (lexicographic) scan order, and it is empty exactly
when no cell is positive — an empty mask yields an empty list, not an
error. -/
theorem C3_mask_extraction_exact (m : Volume) :
    (∀ c : Coord, c ∈ extract m ↔
        c.1 < m.dx ∧ c.2.1 < m.dy ∧ c.2.2 < m.dz ∧
          0 < m.cell c.1 c.2.1 c.2.2) ∧
    (extract m).Nodup ∧
    (extract m).Pairwise coordLt ∧
    (extract m = [] ↔
      ∀ x y z, x < m.dx → y < m.dy → z < m.dz → ¬ 0 < m.cell x y z) := by
  refine ⟨extract_mem_iff m, extract_nodup m, extract_sorted m, ?_⟩
  rw [List.eq_nil_iff_forall_not_mem]
  constructor
  · intro h x y z hx hy hz hpos
    exact h (x, y, z) ((extract_mem_iff m (x, y, z)).2 ⟨hx, hy, hz, hpos⟩)
  · intro h c hc
    obtain ⟨hx, hy, hz, hpos⟩ := (extract_mem_iff m c).1 hc
    exact h c.1 c.2.1 c.2.2 hx hy hz hpos

/-- Witness for C3 at a concrete mask: the 2×2×2 mask occupied at
(0,0,0) and (1,1,1) extracts exactly those two coordinates in scan
order. -/
theorem C3_mask_extraction_exact_witness :
    extract ⟨2, 2, 2, fun x y z =>
        if (x, y, z) = (0, 0, 0) ∨ (x, y, z) = (1, 1, 1) then 1 else 0⟩ =
      [(0, 0, 0), (1, 1, 1)] ∧
    ((0, 0, 0) : Coord) ∈ extract ⟨2, 2, 2, fun x y z =>
        if (x, y, z) = (0, 0, 0) ∨ (x, y, z) = (1, 1, 1) then 1 else 0⟩ := by
  constructor
  · decide
  · exact (((C3_mask_extraction_exact _).1 (0, 0, 0)).2 (by decide))

theorem ratFloor_eq_floor (q : Rat) : q.floor = ⌊q⌋ := by
  rw [Rat.floor_def', Rat.floor_def]

theorem pyRound_intCast (n : Int) : pyRound (n : Rat) = n := by
  unfold pyRound
  simp only [ratFloor_eq_floor, Int.floor_intCast, sub_self]
  norm_num

theorem pyRound_natCast (n : Nat) : pyRound (n : Rat) = n := by
  have h := pyRound_intCast (n : Int)
  simpa using h

theorem Volume.read_eq_some {v : Volume} {x y z : Nat} (hx : x < v.dx)
    (hy : y < v.dy) (hz : z < v.dz) : v.read x y z = some (v.cell x y z) := by
  simp [Volume.read, hx, hy, hz]

theorem Volume.read_eq_none {v : Volume} {x y z : Nat}
    (h : ¬(x < v.dx ∧ y < v.dy ∧ z < v.dz)) : v.read x y z = none := by
  simp [Volume.read, h]

theorem sampleVert_coord (mask lac : Volume) (a b c : Nat) :
    sampleVert mask lac (coordToPos (a, b, c)) =
      if a < mask.dx ∧ b < mask.dy ∧ c < mask.dz then
        if 0 < mask.cell a b c then
          match lac.read a b c with
          | some v => Except.ok (some (v, v, v, (1 : Rat)))
          | none => Except.error ()
        else Except.ok (some (0, 0, 0, (0 : Rat)))
      else Except.ok none := by
  unfold sampleVert coordToPos
  simp only [pyRound_natCast, Int.toNat_natCast]
  have hcond : (0 ≤ (a : Int) ∧ (a : Int) < (mask.dx : Int) ∧
      0 ≤ (b : Int) ∧ (b : Int) < (mask.dy : Int) ∧
      0 ≤ (c : Int) ∧ (c : Int) < (mask.dz : Int)) ↔
      (a < mask.dx ∧ b < mask.dy ∧ c < mask.dz) := by omega
  simp only [hcond]

theorem sampleAll_ok (mask lac : Volume) (cs : List Coord)
    (h : ∀ x ∈ cs, x.1 < mask.dx ∧ x.2.1 < mask.dy ∧ x.2.2 < mask.dz ∧
      0 < mask.cell x.1 x.2.1 x.2.2 ∧
      x.1 < lac.dx ∧ x.2.1 < lac.dy ∧ x.2.2 < lac.dz) :
    sampleAll mask lac (cs.map coordToPos) =
      Except.ok (cs.map fun x =>
        some (lac.cell x.1 x.2.1 x.2.2, lac.cell x.1 x.2.1 x.2.2,
          lac.cell x.1 x.2.1 x.2.2, 1)) := by
  induction cs with
  | nil => rfl
  | cons hd tl ih =>
    obtain ⟨h1, h2, h3, h4, h5, h6, h7⟩ := h hd (List.mem_cons_self hd tl)
    have hs : sampleVert mask lac (coordToPos hd) =
        Except.ok (some (lac.cell hd.1 hd.2.1 hd.2.2, lac.cell hd.1 hd.2.1 hd.2.2,
          lac.cell hd.1 hd.2.1 hd.2.2, 1)) := by
      have := sampleVert_coord mask lac hd.1 hd.2.1 hd.2.2
      rw [this, if_pos ⟨h1, h2, h3⟩, if_pos h4, Volume.read_eq_some h5 h6 h7]
    have ht := ih fun x hx => h x (List.mem_cons_of_mem hd hx)
    simp only [List.map_cons, sampleAll, hs, ht]

theorem sampleAll_error (mask lac : Volume) (cs : List Coord)
    (hmask : ∀ x ∈ cs, x.1 < mask.dx ∧ x.2.1 < mask.dy ∧ x.2.2 < mask.dz ∧
      0 < mask.cell x.1 x.2.1 x.2.2)
    (hbad : ∃ x ∈ cs, ¬(x.1 < lac.dx ∧ x.2.1 < lac.dy ∧ x.2.2 < lac.dz)) :
    sampleAll mask lac (cs.map coordToPos) = Except.error () := by
  induction cs with
  | nil => simp at hbad
  | cons hd tl ih =>
    obtain ⟨h1, h2, h3, h4⟩ := hmask hd (List.mem_cons_self hd tl)
    obtain ⟨x, hx, hxbad⟩ := hbad
    rcases List.mem_cons.1 hx with rfl | hxtl
    · have hs : sampleVert mask lac (coordToPos x) = Except.error () := by
        have := sampleVert_coord mask lac x.1 x.2.1 x.2.2
        rw [this, if_pos ⟨h1, h2, h3⟩, if_pos h4, Volume.read_eq_none hxbad]
      simp only [List.map_cons, sampleAll, hs]
    · have ht := ih (fun y hy => hmask y (List.mem_cons_of_mem hd hy))
        ⟨x, hxtl, hxbad⟩
      cases hs : sampleVert mask lac (coordToPos hd) with
      | error e => cases e; simp only [List.map_cons, sampleAll, hs]
      | ok c => simp only [List.map_cons, sampleAll, hs, ht]

/-- C1 (as stated, refuted): the claim says every coordinate failing
the re-check gets the exact sentinel (0,0,0,0).  At the out-of-bounds
coordinate (5,0,0) against an occupied 1×1×1 mask the colour loop
writes nothing at all (`Except.ok none`), because line 117 has no
`else` branch; and at (1,0,0) against an occupied 2×1×1 mask with a
1×1×1 value volume the loop raises `IndexError` instead of storing the
sentinel. -/
theorem C1_sentinel_counterexample :
    sampleVert ⟨1, 1, 1, fun _ _ _ => 1⟩ ⟨1, 1, 1, fun _ _ _ => 1⟩
        (coordToPos (5, 0, 0)) = Except.ok none ∧
    sampleVert ⟨1, 1, 1, fun _ _ _ => 1⟩ ⟨1, 1, 1, fun _ _ _ => 1⟩
        (coordToPos (5, 0, 0)) ≠ Except.ok (some (0, 0, 0, 0)) ∧
    sampleVert ⟨2, 1, 1, fun _ _ _ => 1⟩ ⟨1, 1, 1, fun _ _ _ => 1⟩
        (coordToPos (1, 0, 0)) = Except.error () := by
  refine ⟨?_, ?_, ?_⟩
  · rw [sampleVert_coord, if_neg (by decide)]
  · rw [sampleVert_coord, if_neg (by decide)]
    decide
  · rw [sampleVert_coord, if_pos (by exact ⟨by decide, by decide, by decide⟩),
      if_pos (by decide), Volume.read_eq_none (by decide)]

/-- C1 (amended): for a vertex at a grid coordinate (a,b,c), the colour
loop (lines 115-122) writes the value-volume scalar replicated across
the first three channels with opacity 1.0 when the coordinate is inside
the mask bounds, the mask re-check passes, and the value volume covers
the coordinate; it writes exactly the sentinel (0,0,0,0) when the
coordinate is inside the mask bounds but the re-check fails; it writes
nothing (the attribute slot keeps its default) when the coordinate is
out of bounds; and it raises an uncaught `IndexError` when the
coordinate is in the mask bounds and occupied but outside the value
volume. -/
theorem C1_sampler_cases (mask lac : Volume) (a b c : Nat) :
    (¬(a < mask.dx ∧ b < mask.dy ∧ c < mask.dz) →
      sampleVert mask lac (coordToPos (a, b, c)) = Except.ok none) ∧
    (a < mask.dx ∧ b < mask.dy ∧ c < mask.dz → ¬0 < mask.cell a b c →
      sampleVert mask lac (coordToPos (a, b, c)) =
        Except.ok (some (0, 0, 0, 0))) ∧
    (a < mask.dx ∧ b < mask.dy ∧ c < mask.dz → 0 < mask.cell a b c →
      (a < lac.dx ∧ b < lac.dy ∧ c < lac.dz →
        sampleVert mask lac (coordToPos (a, b, c)) =
          Except.ok (some (lac.cell a b c, lac.cell a b c, lac.cell a b c, 1))) ∧
      (¬(a < lac.dx ∧ b < lac.dy ∧ c < lac.dz) →
        sampleVert mask lac (coordToPos (a, b, c)) = Except.error ())) := by
  refine ⟨?_, ?_, fun hin hpos => ⟨?_, ?_⟩⟩
  · intro h
    rw [sampleVert_coord, if_neg h]
  · intro hin hpos
    rw [sampleVert_coord, if_pos hin, if_neg hpos]
  · intro hlac
    rw [sampleVert_coord, if_pos hin, if_pos hpos,
      Volume.read_eq_some hlac.1 hlac.2.1 hlac.2.2]
  · intro hlac
    rw [sampleVert_coord, if_pos hin, if_pos hpos, Volume.read_eq_none hlac]

/-- Witness for C1 (amended) at a concrete input: inside a 1×1×1 mask
whose only cell is unoccupied, the loop writes the exact sentinel. -/
theorem C1_sampler_cases_witness :
    sampleVert ⟨1, 1, 1, fun _ _ _ => 0⟩ ⟨1, 1, 1, fun _ _ _ => 0⟩
        (coordToPos (0, 0, 0)) = Except.ok (some (0, 0, 0, 0)) :=
  (C1_sampler_cases ⟨1, 1, 1, fun _ _ _ => 0⟩ ⟨1, 1, 1, fun _ _ _ => 0⟩
    0 0 0).2.1 (by exact ⟨by decide, by decide, by decide⟩) (by decide)

/-- C10: a grid coordinate cast to a vertex position and rounded back
(Python `round`, then `int`) recovers the coordinate exactly; hence
when the colour loop runs against the same mask that produced the
coordinates and a value volume of the same dimensions, every vertex
passes the bounds check and the mask re-check, the sentinel branch is
never taken, and the written colour is the value scalar replicated with
opacity 1.0. -/
theorem C10_position_roundtrip (mask lac : Volume)
    (hdx : lac.dx = mask.dx) (hdy : lac.dy = mask.dy) (hdz : lac.dz = mask.dz)
    (c : Coord) (hc : c ∈ extract mask) :
    roundedCoord (coordToPos c) = ((c.1 : Int), (c.2.1 : Int), (c.2.2 : Int)) ∧
    sampleVert mask lac (coordToPos c) =
      Except.ok (some (lac.cell c.1 c.2.1 c.2.2, lac.cell c.1 c.2.1 c.2.2,
        lac.cell c.1 c.2.1 c.2.2, 1)) := by
  obtain ⟨h1, h2, h3, h4⟩ := (extract_mem_iff mask c).1 hc
  constructor
  · simp [roundedCoord, coordToPos, pyRound_natCast]
  · have := sampleVert_coord mask lac c.1 c.2.1 c.2.2
    rw [this, if_pos ⟨h1, h2, h3⟩, if_pos h4,
      Volume.read_eq_some (hdx ▸ h1) (hdy ▸ h2) (hdz ▸ h3)]

/-- Witness for C10 at a concrete input: the spec's 2×2×2 scenario mask
with the constant-5 value volume, at the extracted coordinate
(0,0,0). -/
theorem C10_position_roundtrip_witness :
    roundedCoord (coordToPos (0, 0, 0)) = (0, 0, 0) ∧
    sampleVert ⟨2, 2, 2, fun x y z =>
        if (x, y, z) = (0, 0, 0) ∨ (x, y, z) = (1, 1, 1) then 1 else 0⟩
      ⟨2, 2, 2, fun _ _ _ => 5⟩ (coordToPos (0, 0, 0)) =
      Except.ok (some (5, 5, 5, 1)) :=
  C10_position_roundtrip
    ⟨2, 2, 2, fun x y z =>
      if (x, y, z) = (0, 0, 0) ∨ (x, y, z) = (1, 1, 1) then 1 else 0⟩
    ⟨2, 2, 2, fun _ _ _ => 5⟩ rfl rfl rfl (0, 0, 0) (by decide)

theorem generateRun_valid (s : GenScene) (name : String)
    (hname : pyStrip name ≠ "") (lacS maskS : Volume) :
    generateRun s true true name lacS maskS =
      generateCore s lacS.transposeZYX maskS.transposeZYX := by
  unfold generateRun
  rw [if_neg (by decide), if_neg (by decide), if_neg hname]

theorem generateCore_ok (s : GenScene) (lac mask : Volume)
    (h : ∀ c ∈ extract mask, c.1 < lac.dx ∧ c.2.1 < lac.dy ∧ c.2.2 < lac.dz) :
    generateCore s lac mask =
      ⟨⟨true, true, true, s.cloudObjects + 1⟩,
        Except.ok ⟨(extract mask).map coordToPos,
          (extract mask).map fun c =>
            some (lac.cell c.1 c.2.1 c.2.2, lac.cell c.1 c.2.1 c.2.2,
              lac.cell c.1 c.2.1 c.2.2, 1)⟩⟩ := by
  have hs := sampleAll_ok mask lac (extract mask) fun x hx => by
    obtain ⟨h1, h2, h3, h4⟩ := (extract_mem_iff mask x).1 hx
    exact ⟨h1, h2, h3, h4, (h x hx).1, (h x hx).2.1, (h x hx).2.2⟩
  simp only [generateCore]
  rw [hs]

theorem generateCore_error (s : GenScene) (lac mask : Volume)
    (h : ∃ c ∈ extract mask,
      ¬(c.1 < lac.dx ∧ c.2.1 < lac.dy ∧ c.2.2 < lac.dz)) :
    generateCore s lac mask =
      ⟨⟨true, s.nodeGroupExists, s.materialExists, s.cloudObjects + 1⟩,
        Except.error GenError.generationFailed⟩ := by
  have hs := sampleAll_error mask lac (extract mask)
    (fun x hx => (extract_mem_iff mask x).1 hx) h
  simp only [generateCore]
  rw [hs]

theorem generateCore_outcome_scene_free (t1 t2 : GenScene) (lac mask : Volume) :
    (generateCore t1 lac mask).outcome = (generateCore t2 lac mask).outcome := by
  simp only [generateCore]
  cases hA : sampleAll mask lac (List.map coordToPos (extract mask)) <;>
    simp only [hA]

theorem generateRun_outcome_scene_free (t1 t2 : GenScene) (p m : Bool)
    (name : String) (lacS maskS : Volume) :
    (generateRun t1 p m name lacS maskS).outcome =
      (generateRun t2 p m name lacS maskS).outcome := by
  unfold generateRun
  cases p
  · rfl
  · cases m
    · simp only [if_neg (show ¬((!true) = true) by decide),
        if_pos (show (!false) = true by decide)]
    · simp only [if_neg (show ¬((!true) = true) by decide)]
      by_cases h : pyStrip name = ""
      · simp only [if_pos h]
      · simp only [if_neg h]
        exact generateCore_outcome_scene_free t1 t2 _ _

/-- C2 (as stated, refuted): with the spec's own mismatched-shape
scenario — mask 2×2×2 (occupied at (0,0,0) and (1,1,1)), value volume
3×3×3 (constant 5) — the Generate operator performs no shape check and
succeeds, producing a point cloud, instead of failing with a
shape-mismatch error. -/
theorem C2_shape_mismatch_counterexample :
    (generateRun ⟨false, false, false, 0⟩ true true "lac_ves"
        ⟨3, 3, 3, fun _ _ _ => 5⟩
        ⟨2, 2, 2, fun x y z =>
          if (x, y, z) = (0, 0, 0) ∨ (x, y, z) = (1, 1, 1) then 1
          else 0⟩).outcome =
      Except.ok ⟨[coordToPos (0, 0, 0), coordToPos (1, 1, 1)],
        [some (5, 5, 5, 1), some (5, 5, 5, 1)]⟩ := by
  rw [generateRun_valid _ _ (by decide), generateCore_ok _ _ _ (by decide)]
  have hext : extract (Volume.transposeZYX ⟨2, 2, 2, fun x y z =>
      if (x, y, z) = (0, 0, 0) ∨ (x, y, z) = (1, 1, 1) then 1 else 0⟩) =
      [(0, 0, 0), (1, 1, 1)] := by decide
  rw [hext]
  rfl

/-- C2 (amended): the Generate operator never compares the mask and
value-volume shapes.  When every extracted coordinate lies within the
value volume's bounds (in particular whenever the value volume is at
least as large as the mask, however mismatched), generation succeeds
and a point cloud is produced; only when some extracted coordinate
falls outside the value volume does the body raise `IndexError`, which
the operator reports as a generic generation failure — not a dedicated
shape-mismatch error, and only after the Cloud mesh object has already
been created. -/
theorem C2_no_shape_check (s : GenScene) (name : String)
    (hname : pyStrip name ≠ "") (lacS maskS : Volume) :
    ((∀ c ∈ extract maskS.transposeZYX,
        c.1 < lacS.transposeZYX.dx ∧ c.2.1 < lacS.transposeZYX.dy ∧
          c.2.2 < lacS.transposeZYX.dz) →
      (generateRun s true true name lacS maskS).outcome =
        Except.ok ⟨(extract maskS.transposeZYX).map coordToPos,
          (extract maskS.transposeZYX).map fun c =>
            some (lacS.transposeZYX.cell c.1 c.2.1 c.2.2,
              lacS.transposeZYX.cell c.1 c.2.1 c.2.2,
              lacS.transposeZYX.cell c.1 c.2.1 c.2.2, 1)⟩) ∧
    ((∃ c ∈ extract maskS.transposeZYX,
        ¬(c.1 < lacS.transposeZYX.dx ∧ c.2.1 < lacS.transposeZYX.dy ∧
          c.2.2 < lacS.transposeZYX.dz)) →
      (generateRun s true true name lacS maskS).outcome =
        Except.error GenError.generationFailed) := by
  constructor
  · intro h
    rw [generateRun_valid _ _ hname, generateCore_ok _ _ _ h]
  · intro h
    rw [generateRun_valid _ _ hname, generateCore_error _ _ _ h]

/-- Witness for C2 (amended) at the concrete mismatched pair: the
2×2×2 mask against the 3×3×3 value volume generates successfully. -/
theorem C2_no_shape_check_witness :
    (generateRun ⟨true, true, true, 3⟩ true true "lac_ves"
        ⟨3, 3, 3, fun _ _ _ => 5⟩
        ⟨2, 2, 2, fun x y z =>
          if (x, y, z) = (0, 0, 0) ∨ (x, y, z) = (1, 1, 1) then 1
          else 0⟩).outcome =
      Except.ok ⟨(extract (Volume.transposeZYX ⟨2, 2, 2, fun x y z =>
          if (x, y, z) = (0, 0, 0) ∨ (x, y, z) = (1, 1, 1) then 1
          else 0⟩)).map coordToPos,
        (extract (Volume.transposeZYX ⟨2, 2, 2, fun x y z =>
          if (x, y, z) = (0, 0, 0) ∨ (x, y, z) = (1, 1, 1) then 1
          else 0⟩)).map fun c =>
          some ((Volume.transposeZYX ⟨3, 3, 3, fun _ _ _ => 5⟩).cell
              c.1 c.2.1 c.2.2,
            (Volume.transposeZYX ⟨3, 3, 3, fun _ _ _ => 5⟩).cell
              c.1 c.2.1 c.2.2,
            (Volume.transposeZYX ⟨3, 3, 3, fun _ _ _ => 5⟩).cell
              c.1 c.2.1 c.2.2, 1)⟩ :=
  (C2_no_shape_check ⟨true, true, true, 3⟩ "lac_ves" (by decide)
    ⟨3, 3, 3, fun _ _ _ => 5⟩
    ⟨2, 2, 2, fun x y z =>
      if (x, y, z) = (0, 0, 0) ∨ (x, y, z) = (1, 1, 1) then 1
      else 0⟩).1 (by decide)

/-- C7: with both file paths valid, an empty attribute name makes the
Generate operator fail with the attribute-name error before anything is
produced: the reported result is exactly the error and the scene is
left untouched (no mesh, collection, node group or material is
created). -/
theorem C7_empty_attribute_name (s : GenScene) (lacS maskS : Volume)
    (name : String) (hname : name = "") :
    generateRun s true true name lacS maskS =
      ⟨s, Except.error GenError.attributeNameError⟩ := by
  subst hname
  unfold generateRun
  rw [if_neg (by decide), if_neg (by decide), if_pos (by decide)]

/-- Witness for C7 at a concrete input. -/
theorem C7_empty_attribute_name_witness :
    generateRun ⟨false, false, false, 0⟩ true true ""
        ⟨1, 1, 1, fun _ _ _ => 1⟩ ⟨1, 1, 1, fun _ _ _ => 1⟩ =
      ⟨⟨false, false, false, 0⟩, Except.error GenError.attributeNameError⟩ :=
  C7_empty_attribute_name ⟨false, false, false, 0⟩
    ⟨1, 1, 1, fun _ _ _ => 1⟩ ⟨1, 1, 1, fun _ _ _ => 1⟩ "" rfl

/-- C8: the outcome of the Generate pipeline (the produced point cloud,
or the error) depends only on the inputs — mask array, value array,
attribute name and path validity — and not on the ambient scene state;
in particular a second run started from the scene the first run left
behind yields a point cloud identical to the first run's, positions and
per-point colours alike. -/
theorem C8_pipeline_deterministic (s1 s2 : GenScene) (p m : Bool)
    (name : String) (lacS maskS : Volume) :
    (generateRun s1 p m name lacS maskS).outcome =
      (generateRun s2 p m name lacS maskS).outcome ∧
    (generateRun (generateRun s1 p m name lacS maskS).scene p m name lacS
        maskS).outcome = (generateRun s1 p m name lacS maskS).outcome :=
  ⟨generateRun_outcome_scene_free s1 s2 p m name lacS maskS,
    generateRun_outcome_scene_free _ s1 p m name lacS maskS⟩

/-- C6: `np.transpose(·, (2, 1, 0))` reverses the axis order — the
loaded array has extents (dz, dy, dx) and `loaded[x, y, z]` reads
`stored[z, y, x]` — and the Generate operator applies this same
reversal to both the value array and the mask array before the rest of
the pipeline runs, keeping their indices co-registered. -/
theorem C6_axis_normalization (v : Volume) :
    ((v.transposeZYX).dx = v.dz ∧ (v.transposeZYX).dy = v.dy ∧
      (v.transposeZYX).dz = v.dx) ∧
    (∀ x y z, (v.transposeZYX).cell x y z = v.cell z y x) ∧
    (∀ (s : GenScene) (name : String) (lacS maskS : Volume),
      pyStrip name ≠ "" →
        generateRun s true true name lacS maskS =
          generateCore s lacS.transposeZYX maskS.transposeZYX) :=
  ⟨⟨rfl, rfl, rfl⟩, fun _ _ _ => rfl,
    fun s name lacS maskS hname => generateRun_valid s name hname lacS maskS⟩

/-- Witness for C6 at a concrete volume, index and pipeline input. -/
theorem C6_axis_normalization_witness :
    (Volume.transposeZYX ⟨1, 2, 3, fun x y z =>
        (x : Rat) + 2 * y + 3 * z⟩).cell 2 1 0 =
      Volume.cell ⟨1, 2, 3, fun x y z => (x : Rat) + 2 * y + 3 * z⟩ 0 1 2 ∧
    generateRun ⟨false, false, false, 0⟩ true true "lac_ves"
        ⟨1, 1, 1, fun _ _ _ => 1⟩ ⟨1, 1, 1, fun _ _ _ => 0⟩ =
      generateCore ⟨false, false, false, 0⟩
        (Volume.transposeZYX ⟨1, 1, 1, fun _ _ _ => 1⟩)
        (Volume.transposeZYX ⟨1, 1, 1, fun _ _ _ => 0⟩) :=
  ⟨(C6_axis_normalization ⟨1, 2, 3, fun x y z =>
      (x : Rat) + 2 * y + 3 * z⟩).2.1 2 1 0,
    (C6_axis_normalization ⟨1, 2, 3, fun x y z =>
      (x : Rat) + 2 * y + 3 * z⟩).2.2 ⟨false, false, false, 0⟩ "lac_ves"
      ⟨1, 1, 1, fun _ _ _ => 1⟩ ⟨1, 1, 1, fun _ _ _ => 0⟩ (by decide)⟩

theorem findNearestAux_spec (q : Pos3) (pts : List Pos3) :
    ∀ i : Nat, pts ≠ [] →
      ∃ j d pj, findNearestAux q pts i = some (j, d) ∧ i ≤ j ∧
        pts[j - i]? = some pj ∧ d = dist2 pj q ∧
        ∀ (k : Nat) (pk : Pos3), pts[k]? = some pk → d ≤ dist2 pk q := by
  induction pts with
  | nil => intro i h; exact absurd rfl h
  | cons p ps ih =>
    intro i _
    by_cases hps : ps = []
    · subst hps
      refine ⟨i, dist2 p q, p, rfl, le_refl i, ?_, rfl, ?_⟩
      · simp
      · intro k pk hk
        cases k with
        | zero =>
          rw [List.getElem?_cons_zero] at hk
          cases hk
          exact le_refl _
        | succ n => rw [List.getElem?_cons_succ] at hk; simp at hk
    · obtain ⟨j, d, pj, haux, hij, hget, hd, hmin⟩ := ih (i + 1) hps
      simp only [findNearestAux, haux]
      by_cases hle : dist2 p q ≤ d
      · rw [if_pos hle]
        refine ⟨i, dist2 p q, p, rfl, le_refl i, ?_, rfl, ?_⟩
        · simp
        · intro k pk hk
          cases k with
          | zero =>
            rw [List.getElem?_cons_zero] at hk
            cases hk
            exact le_refl _
          | succ n =>
            rw [List.getElem?_cons_succ] at hk
            exact le_trans hle (hmin n pk hk)
      · rw [if_neg hle]
        refine ⟨j, d, pj, rfl, by omega, ?_, hd, ?_⟩
        · have hji : j - i = (j - (i + 1)) + 1 := by omega
          rw [hji, List.getElem?_cons_succ]
          exact hget
        · intro k pk hk
          cases k with
          | zero =>
            rw [List.getElem?_cons_zero] at hk
            cases hk
            exact le_of_lt (lt_of_not_ge hle)
          | succ n =>
            rw [List.getElem?_cons_succ] at hk
            exact hmin n pk hk

theorem findNearest_spec (pts : List Pos3) (q : Pos3) (h : pts ≠ []) :
    ∃ j pj, findNearest pts q = some j ∧ pts[j]? = some pj ∧
      ∀ (k : Nat) (pk : Pos3), pts[k]? = some pk → dist2 pj q ≤ dist2 pk q := by
  obtain ⟨j, d, pj, haux, _, hget, hd, hmin⟩ := findNearestAux_spec q pts 0 h
  rw [Nat.sub_zero] at hget
  exact ⟨j, pj, by simp [findNearest, haux], hget,
    fun k pk hk => hd ▸ hmin k pk hk⟩

/-- C4: the attribute transfer is an exact nearest-neighbour copy: the
loop succeeds on a non-empty source, produces one colour per target
vertex, and the colour at each target vertex is, verbatim, the colour
of a source vertex whose distance to the target is minimal over all
source vertices — in particular every transferred value is a member of
the source colour list, with no interpolation or blending. -/
theorem C4_transfer_exact_copy (srcPos : List Pos3) (srcColors : List Color)
    (tgtPos : List Pos3) (hne : srcPos ≠ [])
    (hlen : srcColors.length = srcPos.length) :
    ∃ out, transferColors srcPos srcColors tgtPos = some out ∧
      out.length = tgtPos.length ∧
      ∀ (i : Nat) (t : Pos3), tgtPos[i]? = some t →
        ∃ j pj c, findNearest srcPos t = some j ∧ srcPos[j]? = some pj ∧
          srcColors[j]? = some c ∧ out[i]? = some c ∧ c ∈ srcColors ∧
          ∀ (k : Nat) (pk : Pos3), srcPos[k]? = some pk →
            dist2 pj t ≤ dist2 pk t := by
  induction tgtPos with
  | nil =>
    refine ⟨[], rfl, rfl, ?_⟩
    intro i t ht
    simp at ht
  | cons t ts ih =>
    obtain ⟨out, hout, hlen2, hspec⟩ := ih
    obtain ⟨j, pj, hfind, hgetp, hmin⟩ := findNearest_spec srcPos t hne
    have hj : j < srcColors.length := by
      obtain ⟨hlt, -⟩ := List.getElem?_eq_some_iff.1 hgetp
      omega
    obtain ⟨c, hc⟩ : ∃ c, srcColors[j]? = some c :=
      ⟨srcColors[j], List.getElem?_eq_getElem hj⟩
    have hbind : ((some j).bind fun a => srcColors[a]?) = some c := hc
    refine ⟨c :: out, ?_, by simpa using hlen2, ?_⟩
    · simp only [transferColors, hfind, hbind, hout]
      rfl
    · intro i u hu
      cases i with
      | zero =>
        rw [List.getElem?_cons_zero] at hu
        cases hu
        exact ⟨j, pj, c, hfind, hgetp, hc, by simp,
          List.getElem?_mem hc, hmin⟩
      | succ n =>
        rw [List.getElem?_cons_succ] at hu
        obtain ⟨j', pj', c', h1, h2, h3, h4, h5, h6⟩ := hspec n u hu
        exact ⟨j', pj', c', h1, h2, h3, by simpa using h4, h5, h6⟩

/-- Witness for C4 at the spec's transfer scenario: source points
(0,0,0) and (10,0,0) with colours (1,0,0,1) and (0,1,0,1), target
points (1,0,0) and (9,0,0). -/
theorem C4_transfer_exact_copy_witness :
    ∃ out, transferColors [(0, 0, 0), (10, 0, 0)]
        [(1, 0, 0, 1), (0, 1, 0, 1)] [(1, 0, 0), (9, 0, 0)] = some out ∧
      out.length = 2 ∧
      ∀ (i : Nat) (t : Pos3), ([(1, 0, 0), (9, 0, 0)] : List Pos3)[i]? = some t →
        ∃ j pj c, findNearest [(0, 0, 0), (10, 0, 0)] t = some j ∧
          ([(0, 0, 0), (10, 0, 0)] : List Pos3)[j]? = some pj ∧
          ([(1, 0, 0, 1), (0, 1, 0, 1)] : List Color)[j]? = some c ∧
          out[i]? = some c ∧ c ∈ [(1, 0, 0, 1), (0, 1, 0, 1)] ∧
          ∀ (k : Nat) (pk : Pos3),
            ([(0, 0, 0), (10, 0, 0)] : List Pos3)[k]? = some pk →
              dist2 pj t ≤ dist2 pk t :=
  C4_transfer_exact_copy [(0, 0, 0), (10, 0, 0)] [(1, 0, 0, 1), (0, 1, 0, 1)]
    [(1, 0, 0), (9, 0, 0)] (by decide) (by decide)

/-- C9 (as stated, refuted): a nearest query against an empty index
does not fail with a dedicated empty-index error — `KDTree.find`
returns the null triple `(None, None, None)`, so the query yields no
index, and the transfer loop then dies on `src_colors[None]` with an
uncaught `TypeError`. -/
theorem C9_empty_index_counterexample :
    findNearest [] (0, 0, 0) = none ∧
    transferColors [] [] [(0, 0, 0)] = none :=
  ⟨rfl, rfl⟩

/-- C9 (amended): the index may be built over 0 or 1 points; a nearest
query against a size-0 index returns the null result `none` (no
dedicated error is raised by the query — the subsequent colour lookup
crashes instead, so the transfer produces nothing), and a query
against a size-1 index returns that single point (index 0) regardless
of the query position. -/
theorem C9_index_small_sizes (q p t : Pos3) (srcColors : List Color) :
    findNearest [] q = none ∧
    findNearest [p] q = some 0 ∧
    transferColors [] srcColors [t] = none :=
  ⟨rfl, rfl, rfl⟩

/-- C5 (as stated, refuted): with a Cloud lacking the attribute and a
pre-existing Smooth object in the scene, the Smooth operator does fail
with the missing-attribute error, but the pre-existing state is not
preserved: the old Smooth object has already been deleted and replaced
by the freshly baked geometry when the check runs. -/
theorem C5_partial_state_counterexample :
    (smoothRun (fun ps => ps) "lac_ves"
        ⟨some ⟨[(0, 0, 0)], []⟩, some ⟨[(9, 9, 9)], []⟩⟩).outcome =
      Except.error SmoothError.missingAttribute ∧
    (smoothRun (fun ps => ps) "lac_ves"
        ⟨some ⟨[(0, 0, 0)], []⟩, some ⟨[(9, 9, 9)], []⟩⟩).scene ≠
      ⟨some ⟨[(0, 0, 0)], []⟩, some ⟨[(9, 9, 9)], []⟩⟩ := by
  constructor
  · decide
  · decide

/-- C5 (amended): when the stripped attribute name is absent from the
Cloud's colour attributes, the Smooth operator fails with the
missing-attribute error as a single terminal failure and no attribute
transfer happens; the Cloud object is untouched, but any pre-existing
Smooth object has already been deleted and replaced by the freshly
baked, attribute-less geometry before the check runs. -/
theorem C5_missing_attribute (resample : List Pos3 → List Pos3)
    (attrRaw : String) (s : SmoothScene) (cloud : MeshObj)
    (hc : s.cloud = some cloud)
    (hattr : cloud.hasAttr (pyStrip attrRaw) = false) :
    smoothRun resample attrRaw s =
      ⟨⟨s.cloud, some ⟨resample cloud.positions, []⟩⟩,
        Except.error SmoothError.missingAttribute⟩ := by
  simp only [smoothRun, hc]
  rw [if_neg (by simp [hattr])]

/-- Witness for C5 (amended) at a concrete scene. -/
theorem C5_missing_attribute_witness :
    smoothRun (fun ps => ps) "lac_ves"
        ⟨some ⟨[(0, 0, 0)], []⟩, some ⟨[(9, 9, 9)], []⟩⟩ =
      ⟨⟨some ⟨[(0, 0, 0)], []⟩, some ⟨[(0, 0, 0)], []⟩⟩,
        Except.error SmoothError.missingAttribute⟩ :=
  C5_missing_attribute (fun ps => ps) "lac_ves"
    ⟨some ⟨[(0, 0, 0)], []⟩, some ⟨[(9, 9, 9)], []⟩⟩
    ⟨[(0, 0, 0)], []⟩ rfl (by decide)
